import Mathlib

/-!
Verification of the model save/load/register life cycle of
`google/cloud/aiplatform/metadata/_models.py` and the configuration
delegate of `google/cloud/aiplatform/private_preview/vertex_ai/initializer.py`,
via a shallow embedding: Python values become an inductive type, the
stateful orchestration becomes explicit state passing over association
lists modelling the object-storage and metadata collaborators, and the
observable calls to those collaborators become an explicit effect trace.
-/

namespace AiplatformModels

/-- A Python value as seen by `_save_input_example`: a scalar (anything
`np.isscalar` accepts: numbers, strings, ...), a Python `list`, a Python
`dict` with string keys, a `np.ndarray` (its rows, `.tolist()` of a row
slice being the row list itself), a `pd.DataFrame` (columns of values),
or any other object (`None`, sets, model objects, ...). -/
inductive PyVal where
  | scalar (n : Int)
  | strScalar (s : String)
  | vlist (xs : List PyVal)
  | vdict (kvs : List (String × PyVal))
  | ndarray (rows : List PyVal)
  | dataframe (cols : List (String × List PyVal))
  | other

/-- `np.isscalar`: true on Python/numpy scalars, false on lists, dicts,
ndarrays, DataFrames and other container/None objects. -/
def np_isscalar : PyVal → Bool
  | .scalar _ => true
  | .strScalar _ => true
  | _ => false

/-- `isinstance(x, list)`. -/
def isinstance_list : PyVal → Bool
  | .vlist _ => true
  | _ => false

/-- `isinstance(x, dict)`. -/
def isinstance_dict : PyVal → Bool
  | .vdict _ => true
  | _ => false

/-- `isinstance(x, np.ndarray)`. -/
def isinstance_ndarray : PyVal → Bool
  | .ndarray _ => true
  | _ => false

/-- `isinstance(x, pd.DataFrame)`. -/
def isinstance_dataframe : PyVal → Bool
  | .dataframe _ => true
  | _ => false

/-- `_MAX_INPUT_EXAMPLE_ROWS` of `_models.py`. -/
def _MAX_INPUT_EXAMPLE_ROWS : Nat := 5

/-- Python `v[:_MAX_INPUT_EXAMPLE_ROWS]` on a list value (only reached on
`list` values in the source, under an `all(isinstance(x, list))` guard). -/
def truncate_list : PyVal → PyVal
  | .vlist xs => .vlist (xs.take _MAX_INPUT_EXAMPLE_ROWS)
  | v => v

/-- Python `v[:_MAX_INPUT_EXAMPLE_ROWS].tolist()` on an ndarray value (only
reached on `np.ndarray` values in the source, under an
`all(isinstance(x, np.ndarray))` guard). -/
def truncate_ndarray_tolist : PyVal → PyVal
  | .ndarray rows => .vlist (rows.take _MAX_INPUT_EXAMPLE_ROWS)
  | v => v

/-- The structured `example` document that `_save_input_example` builds and
dumps to `instance.yaml`: the `"type"` tag string and the `"data"` payload. -/
structure ExampleDoc where
  type : String
  data : PyVal

/-- The error taxonomy of the excerpt. `invalidInputKind` and
`unsupportedInputType` are the two distinct `ValueError`s of
`_save_input_example`; `unsupportedFramework` is the `ValueError` of
`save_model`/`load_model` on an unknown framework; `importError` is a
fatal missing-dependency failure; `artifactNotFound`/`fileNotFound` model
pass-through failures of the metadata and storage collaborators. -/
inductive MErr where
  | unsupportedFramework (msg : String)
  | invalidInputKind (msg : String)
  | unsupportedInputType (msg : String)
  | importError (msg : String)
  | artifactNotFound
  | fileNotFound
deriving Repr

/-- Shallow embedding of `_save_input_example` (_models.py lines 222-283),
with numpy, PyYAML and pandas importable: the document construction and the
two `ValueError` paths. The descriptor-file write itself (lines 285-289) is
the returned document. -/
def _save_input_example (input_example : PyVal) : Except MErr ExampleDoc :=
  match input_example with
  | .vlist xs =>
    if xs.all isinstance_list then
      .ok ⟨"list", .vlist (xs.take _MAX_INPUT_EXAMPLE_ROWS)⟩
    else if xs.all np_isscalar then
      .ok ⟨"list", .vlist xs⟩
    else
      .error (.invalidInputKind "The value inside a list must be a scalar or list.")
  | .vdict kvs =>
    if (kvs.map Prod.snd).all isinstance_list then
      .ok ⟨"dict", .vdict (kvs.map (fun kv => (kv.1, truncate_list kv.2)))⟩
    else if (kvs.map Prod.snd).all isinstance_ndarray then
      .ok ⟨"dict", .vdict (kvs.map (fun kv => (kv.1, truncate_ndarray_tolist kv.2)))⟩
    else if (kvs.map Prod.snd).all np_isscalar then
      .ok ⟨"dict", .vdict kvs⟩
    else
      .error (.invalidInputKind
        "The value inside a dictionary must be a scalar, list, or np.ndarray")
  | .ndarray rows =>
    .ok ⟨"numpy.ndarray", .vlist (rows.take _MAX_INPUT_EXAMPLE_ROWS)⟩
  | .dataframe cols =>
    .ok ⟨"pandas.DataFrame",
      .vdict (cols.map (fun c => (c.1, .vlist (c.2.take _MAX_INPUT_EXAMPLE_ROWS))))⟩
  | _ =>
    .error (.unsupportedInputType
      "Input example type not supported. Valid example must be a list, dict, np.ndarray, or pd.DataFrame.")

/-- Python truthiness of an optional string argument: `not x` holds when
the argument is `None` or the empty string. -/
def pyFalsyOptStr : Option String → Bool
  | none => true
  | some s => s = ""

/-- Python `a or b` for an optional string `a` and string `b`. -/
def pyOrStr (a : Option String) (b : String) : String :=
  match a with
  | none => b
  | some s => if s = "" then b else s

/-- `os.path.join(a, b)` for the uses in this module (`b` a plain relative
filename): append `b`, inserting a separator unless `a` already ends in
one or is empty. -/
def os_path_join (a b : String) : String :=
  if a = "" then b
  else if a.data.getLast? = some '/' then a ++ b
  else a ++ "/" ++ b

/-- Python `<` on strings, i.e. lexicographic comparison of the code-point
sequences. -/
def pyStrLtChars : List Char → List Char → Bool
  | [], [] => false
  | [], _ :: _ => true
  | _ :: _, [] => false
  | a :: as, b :: bs =>
    if a.val < b.val then true
    else if b.val < a.val then false
    else pyStrLtChars as bs

/-- Python string `s < t` (raw lexicographic comparison, no semantic
versioning). -/
def pyStrLt (s t : String) : Bool := pyStrLtChars s.data t.data

/-- A Python model object as `save_model` inspects it: the
`__class__.__module__` and `__class__.__name__` strings, whether
`isinstance(model, sklearn.base.BaseEstimator)` holds, and its fitted
parameters (the behavioural content pickle round-trips). -/
structure PyModel where
  module : String
  cls : String
  isSklearnEstimator : Bool
  fittedParams : List (String × Int)
deriving Repr, DecidableEq

/-- `schema_utils.PredictSchemata` as constructed at line 160-162. -/
structure PredictSchemata where
  instance_schema_uri : String
deriving Repr, DecidableEq

/-- The `google_artifact_schema.ExperimentModel` record as built by
`save_model` (lines 167-176), after the metadata service has assigned its
identifier. -/
structure ExperimentModel where
  framework_name : String
  framework_version : String
  model_file : String
  model_class : String
  predict_schemata : Option PredictSchemata
  artifact_id : Option String
  uri : String
  display_name : Option String
deriving Repr, DecidableEq

/-- The entry of `_FRAMEWORK_SPECS` for one framework: the save method,
load method and canonical model filename. -/
structure FrameworkSpec where
  save_method : String
  load_method : String
  model_file : String
deriving Repr, DecidableEq

/-- `_FRAMEWORK_SPECS` of _models.py: the single supported framework. -/
def _FRAMEWORK_SPECS : List (String × FrameworkSpec) :=
  [("sklearn", ⟨"_save_sklearn_model", "_load_sklearn_model", "model.pkl"⟩)]

/-- The content of a file in the modelled object store: the pickle of a
model (`_save_sklearn_model` writes `pickle.dump(model, f)`, and
`pickle.load` of that content is the model again) or the YAML input-example
descriptor. -/
inductive FileContent where
  | pickled (m : PyModel)
  | yamlExample (doc : ExampleDoc)

/-- The object-storage collaborator's state: path to file content, newest
entry first. -/
def GcsState := List (String × FileContent)

/-- The metadata collaborator's state: artifact id to stored record,
newest entry first. -/
def MetaState := List (String × ExperimentModel)

/-- One observable call to an external collaborator, in call order. -/
inductive Effect where
  | bucketExistsCheck (name : String)
  | createBucket (name : String)
  | uploadToGcs (uri : String)
  | createArtifact (id : String)
  | downloadFile (uri : String)
deriving Repr, DecidableEq

/-- The ambient environment of a call: which libraries import, the global
configuration (`initializer.global_config`), the storage service's answer
to the staging bucket existence check, and the value of
`utils.timestamped_unique_name()`. -/
structure Env where
  sklearnAvailable : Bool
  sklearnVersion : String
  config_staging_bucket : Option String
  config_project : String
  config_location : String
  staging_bucket_exists : Bool
  unique_name : String

/-- Result of `save_model`: the effect trace, the post states of the two
collaborators, and the returned record or the raised error. -/
structure SaveResult where
  effects : List Effect
  gcs : GcsState
  meta : MetaState
  result : Except MErr ExperimentModel

/-- Framework detection of `save_model` (lines 113-121): try to import
sklearn — an ImportError is swallowed (`pass`) leaving the name empty —
else set the name and version when the model is a `BaseEstimator`. -/
def detect_framework (env : Env) (model : PyModel) : String × String :=
  if env.sklearnAvailable then
    if model.isSklearnEstimator then ("sklearn", env.sklearnVersion) else ("", "")
  else ("", "")

/-- The uri resolution of `save_model` (lines 131-152): keep a truthy
explicit uri untouched with no storage calls; otherwise take the configured
staging bucket, lazily creating `{project}-vertex-staging-{location}` when
none is configured (existence check first, creation only on absence), and
compose `{staging_bucket}/{unique_name}-{framework_name}-model`. -/
def resolve_uri (env : Env) (project location : Option String)
    (uri : Option String) (framework_name : String) : String × List Effect :=
  if ¬ pyFalsyOptStr uri then (uri.getD "", [])
  else
    let sb : String × List Effect :=
      if ¬ pyFalsyOptStr env.config_staging_bucket then
        (env.config_staging_bucket.getD "", [])
      else
        let proj := pyOrStr project env.config_project
        let loc := pyOrStr location env.config_location
        let name := proj ++ "-vertex-staging-" ++ loc
        if env.staging_bucket_exists then
          ("gs://" ++ name, [.bucketExistsCheck name])
        else
          ("gs://" ++ name, [.bucketExistsCheck name, .createBucket name])
    (sb.1 ++ "/" ++ env.unique_name ++ "-" ++ framework_name ++ "-model", sb.2)

/-- Shallow embedding of `save_model` (lines 113-184): detect the
framework (unsupported type raises the `Model type ... not supported`
ValueError before any effect), resolve the destination uri, pickle the
model into the temporary directory, optionally encode the input example
(its ValueError propagates after the bucket effects but before the
upload), upload the directory, then create the artifact record — the
metadata service stores it under the caller id or, absent one, the id it
assigns (`assigned_id`). -/
def save_model (env : Env) (model : PyModel) (artifact_id : Option String)
    (uri : Option String) (input_example : Option PyVal)
    (display_name : Option String) (project location : Option String)
    (assigned_id : String) (gcs : GcsState) (meta : MetaState) : SaveResult :=
  let fw := detect_framework env model
  match (_FRAMEWORK_SPECS.lookup fw.1 : Option FrameworkSpec) with
  | none =>
    ⟨[], gcs, meta,
      .error (.unsupportedFramework
        ("Model type " ++ model.module ++ "." ++ model.cls ++ " not supported."))⟩
  | some spec =>
    let ru := resolve_uri env project location uri fw.1
    let u := ru.1
    match input_example with
    | none =>
      let finalId := artifact_id.getD assigned_id
      let record : ExperimentModel :=
        { framework_name := fw.1, framework_version := fw.2,
          model_file := spec.model_file,
          model_class := model.module ++ "." ++ model.cls,
          predict_schemata := none, artifact_id := some finalId,
          uri := u, display_name := display_name }
      ⟨ru.2 ++ [.uploadToGcs u, .createArtifact finalId],
        (os_path_join u spec.model_file, .pickled model) :: gcs,
        (finalId, record) :: meta, .ok record⟩
    | some ex =>
      match _save_input_example ex with
      | .error e => ⟨ru.2, gcs, meta, .error e⟩
      | .ok doc =>
        let finalId := artifact_id.getD assigned_id
        let record : ExperimentModel :=
          { framework_name := fw.1, framework_version := fw.2,
            model_file := spec.model_file,
            model_class := model.module ++ "." ++ model.cls,
            predict_schemata := some ⟨os_path_join u "instance.yaml"⟩,
            artifact_id := some finalId, uri := u, display_name := display_name }
        ⟨ru.2 ++ [.uploadToGcs u, .createArtifact finalId],
          (os_path_join u spec.model_file, .pickled model)
            :: (os_path_join u "instance.yaml", .yamlExample doc) :: gcs,
          (finalId, record) :: meta, .ok record⟩

/-- Result of a load: the effect trace, whether the version-compatibility
warning was logged, and the loaded model or the raised error. -/
structure LoadResult where
  effects : List Effect
  warned : Bool
  result : Except MErr PyModel

/-- Shallow embedding of `_load_sklearn_model` (lines 359-375): raise
ImportError when sklearn is absent; log the compatibility warning exactly
when `sklearn.__version__ < model_artifact.framework_version` as a raw
string comparison; then unpickle the downloaded file. -/
def _load_sklearn_model (env : Env) (content : FileContent)
    (model_artifact : ExperimentModel) : Bool × Except MErr PyModel :=
  if env.sklearnAvailable then
    let warned := pyStrLt env.sklearnVersion model_artifact.framework_version
    match content with
    | .pickled m => (warned, .ok m)
    | .yamlExample _ => (warned, .error .fileNotFound)
  else
    (false, .error (.importError
      "sklearn is not installed and is required for loading models."))

/-- Shallow embedding of `load_model` (lines 323-339): resolve the record
by id via the metadata collaborator, reject a framework missing from
`_FRAMEWORK_SPECS`, download `os.path.join(model.uri, model_file)` from
the object store, and hand the file to the framework's load method. -/
def load_model (env : Env) (id : String) (gcs : GcsState)
    (meta : MetaState) : LoadResult :=
  match (List.lookup id meta : Option ExperimentModel) with
  | none => ⟨[], false, .error .artifactNotFound⟩
  | some art =>
    match (_FRAMEWORK_SPECS.lookup art.framework_name : Option FrameworkSpec) with
    | none =>
      ⟨[], false,
        .error (.unsupportedFramework
          ("Model type " ++ art.framework_name ++ " not supported."))⟩
    | some spec =>
      let src := os_path_join art.uri spec.model_file
      match (List.lookup src gcs : Option FileContent) with
      | none => ⟨[.downloadFile src], false, .error .fileNotFound⟩
      | some content =>
        let r := _load_sklearn_model env content art
        ⟨[.downloadFile src], r.1, r.2⟩

/-- One lookup against the prebuilt-container catalog
(`helpers._get_closest_match_prebuilt_container_uri`), with the arguments
`register_model` passes at lines 609-614. -/
structure CatalogLookup where
  framework : String
  framework_version : String
  region : String
  accelerator : String
deriving Repr, DecidableEq

/-- The serving-container resolution of `register_model` (lines 604-614):
when `serving_container_image_uri` is falsy, choose the accelerator —
`"gpu"` exactly when the record's framework name is `"tensorflow"` and the
caller set `use_gpu`, else `"cpu"` — and look the image up in the
prebuilt-container catalog; otherwise keep the explicit image and perform
no lookup. Returns the lookup performed (if any) and the image used. -/
def register_model_container (art : ExperimentModel)
    (serving_container_image_uri : Option String) (use_gpu : Bool)
    (location : String) (catalog : CatalogLookup → String) :
    Option CatalogLookup × String :=
  if ¬ pyFalsyOptStr serving_container_image_uri then
    (none, serving_container_image_uri.getD "")
  else
    let accelerator :=
      if art.framework_name = "tensorflow" ∧ use_gpu then "gpu" else "cpu"
    let lk : CatalogLookup :=
      ⟨art.framework_name, art.framework_version, location, accelerator⟩
    (some lk, catalog lk)

/-- The state of the `_Config` delegate of
`private_preview/vertex_ai/initializer.py`: the single `_remote` flag (all
other attribute reads are forwarded to the shared global configuration). -/
structure ConfigState where
  remote : Bool
deriving Repr, DecidableEq

/-- `_Config.__init__`: the flag starts `False`. -/
def ConfigState.mk0 : ConfigState := ⟨false⟩

/-- `_Config.init(*, remote: Optional[bool] = False, **kwargs)`: the
`remote` argument as received — `none` models an explicit `None`, `some b`
an explicit boolean. The flag is overwritten unless the argument is
`None`. -/
def ConfigState.init (st : ConfigState) (remote : Option Bool) : ConfigState :=
  match remote with
  | none => st
  | some b => { st with remote := b }

/-- The declared default of the `remote` parameter: `False`, not `None`.
A call that omits the argument is a call with this value. -/
def remoteArgDefault : Option Bool := some false

/-- A configuration call that omits the `remote` keyword. -/
def ConfigState.initOmittingRemote (st : ConfigState) : ConfigState :=
  st.init remoteArgDefault

/-- A value that is a Python list is never a numpy scalar. -/
theorem np_isscalar_of_isinstance_list {x : PyVal} (h : isinstance_list x = true) :
    np_isscalar x = false := by
  cases x <;> simp [isinstance_list, np_isscalar] at h ⊢

/-- If every element of a list is a Python list and also a numpy scalar,
the list is empty. -/
theorem eq_nil_of_all_list_all_scalar {xs : List PyVal}
    (hl : xs.all isinstance_list = true) (hs : xs.all np_isscalar = true) :
    xs = [] := by
  cases xs with
  | nil => rfl
  | cons a as =>
    have h1 := (List.all_eq_true.mp hl) a (List.mem_cons_self a as)
    have h2 := (List.all_eq_true.mp hs) a (List.mem_cons_self a as)
    rw [np_isscalar_of_isinstance_list h1] at h2
    cases h2

/-- Claim C2: a list whose elements are all lists is encoded with tag
`"list"` and data the first 5 elements in input order; a list whose
elements are all scalars is encoded with tag `"list"` and data the whole
input, untruncated; a list holding both a scalar and a list fails with the
InvalidInputKind ValueError. -/
theorem save_input_example_list_spec (xs : List PyVal) :
    (xs.all isinstance_list = true →
      _save_input_example (.vlist xs) =
        .ok ⟨"list", .vlist (xs.take _MAX_INPUT_EXAMPLE_ROWS)⟩) ∧
    (xs.all np_isscalar = true →
      _save_input_example (.vlist xs) = .ok ⟨"list", .vlist xs⟩) ∧
    ((∃ x ∈ xs, np_isscalar x = true) → (∃ y ∈ xs, isinstance_list y = true) →
      _save_input_example (.vlist xs) =
        .error (.invalidInputKind
          "The value inside a list must be a scalar or list.")) := by
  refine ⟨?_, ?_, ?_⟩
  · intro h
    simp [_save_input_example, h]
  · intro h
    by_cases hl : xs.all isinstance_list = true
    · have := eq_nil_of_all_list_all_scalar hl h
      subst this
      simp [_save_input_example]
    · simp [_save_input_example, hl, h]
  · rintro ⟨x, hx, hxs⟩ ⟨y, hy, hyl⟩
    have hl : ¬ xs.all isinstance_list = true := by
      intro hall
      have := (List.all_eq_true.mp hall) x hx
      rw [np_isscalar_of_isinstance_list this] at hxs
      cases hxs
    have hs : ¬ xs.all np_isscalar = true := by
      intro hall
      have := (List.all_eq_true.mp hall) y hy
      rw [np_isscalar_of_isinstance_list hyl] at this
      cases this
    simp [_save_input_example, hl, hs]

/-- Witness for `save_input_example_list_spec` at a concrete mixed list. -/
theorem save_input_example_list_spec_witness :
    _save_input_example (.vlist [.scalar 1, .vlist [.scalar 2]]) =
      .error (.invalidInputKind
        "The value inside a list must be a scalar or list.") :=
  (save_input_example_list_spec [.scalar 1, .vlist [.scalar 2]]).2.2
    ⟨.scalar 1, by simp, rfl⟩ ⟨.vlist [.scalar 2], by simp, rfl⟩

/-- A value that is an ndarray is never a numpy scalar. -/
theorem np_isscalar_of_isinstance_ndarray {x : PyVal}
    (h : isinstance_ndarray x = true) : np_isscalar x = false := by
  cases x <;> simp [isinstance_ndarray, np_isscalar] at h ⊢

/-- Claim C3: a dict whose values are all lists is encoded with each value
truncated to its first 5 elements; otherwise, a dict whose values are all
ndarrays is encoded with each value truncated to 5 rows and converted to a
plain list; otherwise, a dict whose values are all scalars keeps its data
as-is; a dict holding both a scalar value and a sequence (list or ndarray)
value fails with the InvalidInputKind ValueError. -/
theorem save_input_example_dict_spec (kvs : List (String × PyVal)) :
    ((kvs.map Prod.snd).all isinstance_list = true →
      _save_input_example (.vdict kvs) =
        .ok ⟨"dict", .vdict (kvs.map (fun kv => (kv.1, truncate_list kv.2)))⟩) ∧
    ((kvs.map Prod.snd).all isinstance_list = false →
      (kvs.map Prod.snd).all isinstance_ndarray = true →
      _save_input_example (.vdict kvs) =
        .ok ⟨"dict",
          .vdict (kvs.map (fun kv => (kv.1, truncate_ndarray_tolist kv.2)))⟩) ∧
    ((kvs.map Prod.snd).all isinstance_list = false →
      (kvs.map Prod.snd).all isinstance_ndarray = false →
      (kvs.map Prod.snd).all np_isscalar = true →
      _save_input_example (.vdict kvs) = .ok ⟨"dict", .vdict kvs⟩) ∧
    ((∃ v ∈ kvs.map Prod.snd, np_isscalar v = true) →
      (∃ w ∈ kvs.map Prod.snd,
        isinstance_list w = true ∨ isinstance_ndarray w = true) →
      _save_input_example (.vdict kvs) =
        .error (.invalidInputKind
          "The value inside a dictionary must be a scalar, list, or np.ndarray")) := by
  refine ⟨?_, ?_, ?_, ?_⟩
  · intro h
    simp [_save_input_example, h]
  · intro hl hn
    simp [_save_input_example, hl, hn]
  · intro hl hn hs
    simp [_save_input_example, hl, hn, hs]
  · rintro ⟨v, hv, hvs⟩ ⟨w, hw, hwseq⟩
    have hwns : np_isscalar w = false := by
      rcases hwseq with h | h
      · exact np_isscalar_of_isinstance_list h
      · exact np_isscalar_of_isinstance_ndarray h
    have hl : ¬ (kvs.map Prod.snd).all isinstance_list = true := by
      intro hall
      have := (List.all_eq_true.mp hall) v hv
      rw [np_isscalar_of_isinstance_list this] at hvs
      cases hvs
    have hn : ¬ (kvs.map Prod.snd).all isinstance_ndarray = true := by
      intro hall
      have := (List.all_eq_true.mp hall) v hv
      rw [np_isscalar_of_isinstance_ndarray this] at hvs
      cases hvs
    have hs : ¬ (kvs.map Prod.snd).all np_isscalar = true := by
      intro hall
      have := (List.all_eq_true.mp hall) w hw
      rw [hwns] at this
      cases this
    simp [_save_input_example, hl, hn, hs]

/-- Witness for `save_input_example_dict_spec` at a concrete mixed dict. -/
theorem save_input_example_dict_spec_witness :
    _save_input_example (.vdict [("a", .scalar 1), ("b", .vlist [.scalar 2])]) =
      .error (.invalidInputKind
        "The value inside a dictionary must be a scalar, list, or np.ndarray") :=
  (save_input_example_dict_spec [("a", .scalar 1), ("b", .vlist [.scalar 2])]).2.2.2
    ⟨.scalar 1, by simp, rfl⟩ ⟨.vlist [.scalar 2], by simp, Or.inl rfl⟩

/-- Claim C9: the empty list and the empty dict are accepted — the
all-elements checks hold vacuously — producing a `"list"` (resp. `"dict"`)
document with empty data; the UnsupportedInputType ValueError arises only
for inputs that are not a list, dict, ndarray, or DataFrame. -/
theorem save_input_example_empty_and_unsupported :
    _save_input_example (.vlist []) = .ok ⟨"list", .vlist []⟩ ∧
    _save_input_example (.vdict []) = .ok ⟨"dict", .vdict []⟩ ∧
    (∀ (v : PyVal) (msg : String),
      _save_input_example v = .error (.unsupportedInputType msg) →
      isinstance_list v = false ∧ isinstance_dict v = false ∧
      isinstance_ndarray v = false ∧ isinstance_dataframe v = false) := by
  refine ⟨rfl, rfl, ?_⟩
  intro v msg h
  cases v with
  | vlist xs =>
    simp only [_save_input_example] at h
    split at h
    · cases h
    · split at h
      · cases h
      · cases h
  | vdict kvs =>
    simp only [_save_input_example] at h
    split at h
    · cases h
    · split at h
      · cases h
      · split at h
        · cases h
        · cases h
  | ndarray rows => cases h
  | dataframe cols => cases h
  | scalar n => exact ⟨rfl, rfl, rfl, rfl⟩
  | strScalar s => exact ⟨rfl, rfl, rfl, rfl⟩
  | other => exact ⟨rfl, rfl, rfl, rfl⟩

/-- Witness for `save_input_example_empty_and_unsupported` at the scalar
input `3`, which is rejected as UnsupportedInputType. -/
theorem save_input_example_empty_and_unsupported_witness :
    isinstance_list (.scalar 3) = false ∧ isinstance_dict (.scalar 3) = false ∧
    isinstance_ndarray (.scalar 3) = false ∧
    isinstance_dataframe (.scalar 3) = false :=
  save_input_example_empty_and_unsupported.2.2 (.scalar 3)
    "Input example type not supported. Valid example must be a list, dict, np.ndarray, or pd.DataFrame."
    rfl

/-- When the model is not detected as a supported framework, `save_model`
raises the `Model type ... not supported.` ValueError before touching any
collaborator: no effects, stores unchanged. Shared helper for the
unsupported-framework claims. -/
theorem save_model_of_not_detected (env : Env) (model : PyModel)
    (artifact_id uri : Option String) (input_example : Option PyVal)
    (display_name project location : Option String) (assigned_id : String)
    (gcs : GcsState) (meta : MetaState)
    (h : (detect_framework env model).1 = "") :
    save_model env model artifact_id uri input_example display_name
      project location assigned_id gcs meta =
    ⟨[], gcs, meta,
      .error (.unsupportedFramework
        ("Model type " ++ model.module ++ "." ++ model.cls ++ " not supported."))⟩ := by
  simp only [save_model, h]
  rfl

/-- When either sklearn fails to import or the model is not a
`BaseEstimator`, no framework is detected. -/
theorem detect_framework_empty (env : Env) (model : PyModel)
    (h : env.sklearnAvailable = false ∨ model.isSklearnEstimator = false) :
    (detect_framework env model).1 = "" := by
  rcases h with h | h <;> simp [detect_framework, h]

/-- Claim C4: for a model whose type is not in `_FRAMEWORK_SPECS` (not a
sklearn estimator, or sklearn absent), `save_model` fails with the
UnsupportedFramework ValueError whose message contains the fully-qualified
class name `module.name`, and no effect is performed and no artifact is
created: both collaborator states are untouched. -/
theorem save_model_unsupported_framework (env : Env) (model : PyModel)
    (artifact_id uri : Option String) (input_example : Option PyVal)
    (display_name project location : Option String) (assigned_id : String)
    (gcs : GcsState) (meta : MetaState)
    (h : env.sklearnAvailable = false ∨ model.isSklearnEstimator = false) :
    (save_model env model artifact_id uri input_example display_name
        project location assigned_id gcs meta).result =
      .error (.unsupportedFramework
        ("Model type " ++ model.module ++ "." ++ model.cls ++ " not supported.")) ∧
    (∃ pre post, "Model type " ++ model.module ++ "." ++ model.cls ++ " not supported."
        = pre ++ (model.module ++ "." ++ model.cls) ++ post) ∧
    (save_model env model artifact_id uri input_example display_name
        project location assigned_id gcs meta).effects = [] ∧
    (save_model env model artifact_id uri input_example display_name
        project location assigned_id gcs meta).gcs = gcs ∧
    (save_model env model artifact_id uri input_example display_name
        project location assigned_id gcs meta).meta = meta := by
  rw [save_model_of_not_detected env model artifact_id uri input_example
    display_name project location assigned_id gcs meta
    (detect_framework_empty env model h)]
  exact ⟨rfl, ⟨"Model type ", " not supported.", by simp [String.append_assoc]⟩,
    rfl, rfl, rfl⟩

/-- Witness for `save_model_unsupported_framework`: an xgboost model with
sklearn importable. -/
theorem save_model_unsupported_framework_witness :
    (save_model ⟨true, "1.0", some "gs://sb", "p", "l", true, "u"⟩
        ⟨"xgboost.sklearn", "XGBClassifier", false, []⟩
        none none none none none none "id0" [] []).result =
      .error (.unsupportedFramework
        ("Model type " ++ "xgboost.sklearn" ++ "." ++ "XGBClassifier" ++ " not supported.")) :=
  (save_model_unsupported_framework ⟨true, "1.0", some "gs://sb", "p", "l", true, "u"⟩
    ⟨"xgboost.sklearn", "XGBClassifier", false, []⟩
    none none none none none none "id0" [] [] (Or.inr rfl)).1

/-- Claim C10: when sklearn cannot be imported at save time, `save_model`
swallows the ImportError (the `except ImportError: pass`) and fails for
every model — sklearn estimator or not — with the same UnsupportedFramework
ValueError as for unsupported types, never an ImportError; the load path,
in contrast, raises the ImportError of `_load_sklearn_model`. -/
theorem save_model_swallows_import_error (env : Env) (model : PyModel)
    (artifact_id uri : Option String) (input_example : Option PyVal)
    (display_name project location : Option String) (assigned_id : String)
    (gcs : GcsState) (meta : MetaState)
    (h : env.sklearnAvailable = false) :
    (save_model env model artifact_id uri input_example display_name
        project location assigned_id gcs meta).result =
      .error (.unsupportedFramework
        ("Model type " ++ model.module ++ "." ++ model.cls ++ " not supported.")) ∧
    (∀ (content : FileContent) (art : ExperimentModel),
      (_load_sklearn_model env content art).2 =
        .error (.importError
          "sklearn is not installed and is required for loading models.")) := by
  constructor
  · rw [save_model_of_not_detected env model artifact_id uri input_example
      display_name project location assigned_id gcs meta
      (detect_framework_empty env model (Or.inl h))]
  · intro content art
    simp [_load_sklearn_model, h]

/-- Witness for `save_model_swallows_import_error`: a genuine sklearn
estimator saved in an environment where sklearn is not importable. -/
theorem save_model_swallows_import_error_witness :
    (save_model ⟨false, "", some "gs://sb", "p", "l", true, "u"⟩
        ⟨"sklearn.linear_model", "LinearRegression", true, [("coef", 2)]⟩
        none none none none none none "id0" [] []).result =
      .error (.unsupportedFramework
        ("Model type " ++ "sklearn.linear_model" ++ "." ++ "LinearRegression" ++ " not supported.")) :=
  (save_model_swallows_import_error ⟨false, "", some "gs://sb", "p", "l", true, "u"⟩
    ⟨"sklearn.linear_model", "LinearRegression", true, [("coef", 2)]⟩
    none none none none none none "id0" [] [] rfl).1

/-- The bucket-related storage calls: existence check and creation. -/
def isBucketOp : Effect → Bool
  | .bucketExistsCheck _ => true
  | .createBucket _ => true
  | _ => false

/-- A truthy explicit uri short-circuits `resolve_uri`: no storage calls. -/
theorem resolve_uri_effects_of_truthy (env : Env)
    (project location uri : Option String) (fw : String)
    (h : pyFalsyOptStr uri = false) :
    (resolve_uri env project location uri fw).2 = [] := by
  simp [resolve_uri, h]

/-- `resolve_uri` performs storage calls only when the explicit uri is
falsy and no default staging bucket is configured. -/
theorem resolve_uri_effects_nonempty (env : Env)
    (project location uri : Option String) (fw : String)
    (h : (resolve_uri env project location uri fw).2 ≠ []) :
    pyFalsyOptStr uri = true ∧ pyFalsyOptStr env.config_staging_bucket = true := by
  by_cases hu : pyFalsyOptStr uri = true
  · by_cases hs : pyFalsyOptStr env.config_staging_bucket = true
    · exact ⟨hu, hs⟩
    · exfalso
      apply h
      simp [resolve_uri, hu, hs]
  · exfalso
    apply h
    exact resolve_uri_effects_of_truthy env project location uri fw
      (Bool.not_eq_true _ ▸ hu)

/-- The effect trace of `save_model`, restricted to bucket operations, is
either empty or exactly the bucket operations of the uri resolution. -/
theorem save_model_bucket_ops_cases (env : Env) (model : PyModel)
    (artifact_id uri : Option String) (input_example : Option PyVal)
    (display_name project location : Option String) (assigned_id : String)
    (gcs : GcsState) (meta : MetaState) :
    (save_model env model artifact_id uri input_example display_name
        project location assigned_id gcs meta).effects.filter isBucketOp = [] ∨
    (save_model env model artifact_id uri input_example display_name
        project location assigned_id gcs meta).effects.filter isBucketOp =
      (resolve_uri env project location uri
        (detect_framework env model).1).2.filter isBucketOp := by
  simp only [save_model]
  split
  · left
    rfl
  · split
    · right
      simp [List.filter_append, isBucketOp]
    · split
      · right
        rfl
      · right
        simp [List.filter_append, isBucketOp]

/-- Claim C5: with an explicit non-empty destination uri, `save_model`
performs no bucket-existence check and no bucket creation; conversely any
bucket operation in the trace means the uri was absent (or empty) and no
default staging bucket was configured — the lazy staging-bucket resolution
happens only then. -/
theorem save_model_bucket_ops_spec (env : Env) (model : PyModel)
    (artifact_id uri : Option String) (input_example : Option PyVal)
    (display_name project location : Option String) (assigned_id : String)
    (gcs : GcsState) (meta : MetaState) :
    (∀ s, uri = some s → s ≠ "" →
      (save_model env model artifact_id uri input_example display_name
          project location assigned_id gcs meta).effects.filter isBucketOp = []) ∧
    ((save_model env model artifact_id uri input_example display_name
          project location assigned_id gcs meta).effects.filter isBucketOp ≠ [] →
      pyFalsyOptStr uri = true ∧
        pyFalsyOptStr env.config_staging_bucket = true) := by
  constructor
  · intro s hs hne
    have hf : pyFalsyOptStr uri = false := by
      subst hs
      simpa [pyFalsyOptStr] using hne
    rcases save_model_bucket_ops_cases env model artifact_id uri input_example
      display_name project location assigned_id gcs meta with h | h
    · exact h
    · rw [h, resolve_uri_effects_of_truthy env project location uri _ hf]
      rfl
  · intro hne
    rcases save_model_bucket_ops_cases env model artifact_id uri input_example
      display_name project location assigned_id gcs meta with h | h
    · exact absurd h hne
    · rw [h] at hne
      apply resolve_uri_effects_nonempty env project location uri
        (detect_framework env model).1
      intro hnil
      apply hne
      rw [hnil]
      rfl

/-- Witness for `save_model_bucket_ops_spec`: saving to an explicit uri
with no staging bucket configured still performs no bucket operation. -/
theorem save_model_bucket_ops_spec_witness :
    (save_model ⟨true, "1.0", none, "p", "l", false, "u"⟩
        ⟨"sklearn.linear_model", "LinearRegression", true, [("coef", 2)]⟩
        none (some "gs://explicit/dir") none none none none "id0" [] []).effects.filter
      isBucketOp = [] :=
  (save_model_bucket_ops_spec ⟨true, "1.0", none, "p", "l", false, "u"⟩
    ⟨"sklearn.linear_model", "LinearRegression", true, [("coef", 2)]⟩
    none (some "gs://explicit/dir") none none none none "id0" [] []).1
    "gs://explicit/dir" rfl (by decide)

/-- Claim C1: saving a supported (sklearn) model with no input example and
loading the resulting record by its assigned identifier returns the
original model — same class (the record even carries its fully-qualified
name) and same fitted parameters — for any prior collaborator states,
since the modelled storage and metadata collaborators return exactly what
was stored. -/
theorem save_then_load_roundtrip (env : Env) (model : PyModel)
    (artifact_id uri : Option String)
    (display_name project location : Option String) (assigned_id : String)
    (gcs : GcsState) (meta : MetaState)
    (hsk : env.sklearnAvailable = true)
    (hm : model.isSklearnEstimator = true) :
    ∃ record : ExperimentModel, ∃ id : String,
      (save_model env model artifact_id uri none display_name project location
          assigned_id gcs meta).result = .ok record ∧
      record.artifact_id = some id ∧
      record.model_class = model.module ++ "." ++ model.cls ∧
      (load_model env id
          (save_model env model artifact_id uri none display_name project
            location assigned_id gcs meta).gcs
          (save_model env model artifact_id uri none display_name project
            location assigned_id gcs meta).meta).result = .ok model := by
  have hd : detect_framework env model = ("sklearn", env.sklearnVersion) := by
    simp [detect_framework, hsk, hm]
  refine ⟨{ framework_name := "sklearn", framework_version := env.sklearnVersion,
            model_file := "model.pkl",
            model_class := model.module ++ "." ++ model.cls,
            predict_schemata := none,
            artifact_id := some (artifact_id.getD assigned_id),
            uri := (resolve_uri env project location uri "sklearn").1,
            display_name := display_name },
          artifact_id.getD assigned_id, ?_, rfl, rfl, ?_⟩
  · simp only [save_model, hd]
    rfl
  · simp only [save_model, load_model, hd]
    simp only [List.lookup, beq_self_eq_true, if_pos]
    simp [_load_sklearn_model, hsk]

/-- Witness for `save_then_load_roundtrip` at a concrete fitted model. -/
theorem save_then_load_roundtrip_witness :
    ∃ record : ExperimentModel, ∃ id : String,
      (save_model ⟨true, "1.2.2", some "gs://sb", "p", "l", true, "u"⟩
          ⟨"sklearn.linear_model", "LinearRegression", true, [("coef", 7)]⟩
          none none none none none none "id0" [] []).result = .ok record ∧
      record.artifact_id = some id ∧
      record.model_class = "sklearn.linear_model" ++ "." ++ "LinearRegression" ∧
      (load_model ⟨true, "1.2.2", some "gs://sb", "p", "l", true, "u"⟩ id
          (save_model ⟨true, "1.2.2", some "gs://sb", "p", "l", true, "u"⟩
            ⟨"sklearn.linear_model", "LinearRegression", true, [("coef", 7)]⟩
            none none none none none none "id0" [] []).gcs
          (save_model ⟨true, "1.2.2", some "gs://sb", "p", "l", true, "u"⟩
            ⟨"sklearn.linear_model", "LinearRegression", true, [("coef", 7)]⟩
            none none none none none none "id0" [] []).meta).result =
        .ok ⟨"sklearn.linear_model", "LinearRegression", true, [("coef", 7)]⟩ :=
  save_then_load_roundtrip ⟨true, "1.2.2", some "gs://sb", "p", "l", true, "u"⟩
    ⟨"sklearn.linear_model", "LinearRegression", true, [("coef", 7)]⟩
    none none none none none "id0" [] [] rfl rfl

/-- An environment running sklearn 2.0 with the default staging bucket. -/
def envSk20 : Env := ⟨true, "2.0", some "gs://sb", "p", "l", true, "u"⟩

/-- A record saved under sklearn 1.0. -/
def artSk10 : ExperimentModel :=
  ⟨"sklearn", "1.0", "model.pkl", "sklearn.linear_model.LinearRegression",
    none, some "a1", "gs://b/m", none⟩

/-- The model pickled in the counterexample stores. -/
def mdlLR : PyModel := ⟨"sklearn.linear_model", "LinearRegression", true, [("coef", 7)]⟩

/-- Object store holding the pickle of `mdlLR` at the record's uri. -/
def gcsSk : GcsState := [(os_path_join "gs://b/m" "model.pkl", .pickled mdlLR)]

/-- Metadata store holding `artSk10` under id `a1`. -/
def metaSk : MetaState := [("a1", artSk10)]

/-- Counterexample to claim C6 as stated: loading a record saved under
sklearn 1.0 while running sklearn 2.0 — versions differ — emits no
warning, because the code warns only when the running version string is
strictly smaller than the recorded one, not whenever they differ. -/
theorem load_version_warning_counterexample :
    envSk20.sklearnVersion ≠ artSk10.framework_version ∧
    (load_model envSk20 "a1" gcsSk metaSk).warned = false ∧
    (load_model envSk20 "a1" gcsSk metaSk).result = .ok mdlLR := by
  refine ⟨by decide, rfl, rfl⟩

/-- Claim C6 (amended): on a load of a supported record, the non-fatal
compatibility warning is emitted exactly when the running framework
version string is strictly smaller than the recorded one under raw
lexicographic string comparison (not semantic versioning, and no warning
when the running version compares greater), and the load proceeds to
return the stored model after the warning. -/
theorem load_version_warning_spec (env : Env) (id : String)
    (gcs : GcsState) (meta : MetaState) (art : ExperimentModel) (m : PyModel)
    (hsk : env.sklearnAvailable = true)
    (hart : List.lookup id meta = some art)
    (hfw : art.framework_name = "sklearn")
    (hfile : List.lookup (os_path_join art.uri "model.pkl") gcs =
      some (.pickled m)) :
    (load_model env id gcs meta).warned =
      pyStrLt env.sklearnVersion art.framework_version ∧
    (load_model env id gcs meta).result = .ok m := by
  simp only [load_model, hart, hfw]
  have hspec : (_FRAMEWORK_SPECS.lookup "sklearn" : Option FrameworkSpec) =
      some ⟨"_save_sklearn_model", "_load_sklearn_model", "model.pkl"⟩ := rfl
  simp only [hspec]
  simp only [hfile]
  simp [_load_sklearn_model, hsk]

/-- Witness for `load_version_warning_spec`: running sklearn 1.10.0 on a
record saved under 1.9.0 warns (the raw-string imprecision: 1.10.0 is the
newer release yet compares smaller). -/
theorem load_version_warning_spec_witness :
    (load_model ⟨true, "1.10.0", some "gs://sb", "p", "l", true, "u"⟩ "a1" gcsSk
        [("a1", ⟨"sklearn", "1.9.0", "model.pkl",
          "sklearn.linear_model.LinearRegression", none, some "a1",
          "gs://b/m", none⟩)]).warned = pyStrLt "1.10.0" "1.9.0" ∧
    (load_model ⟨true, "1.10.0", some "gs://sb", "p", "l", true, "u"⟩ "a1" gcsSk
        [("a1", ⟨"sklearn", "1.9.0", "model.pkl",
          "sklearn.linear_model.LinearRegression", none, some "a1",
          "gs://b/m", none⟩)]).result = .ok mdlLR :=
  load_version_warning_spec ⟨true, "1.10.0", some "gs://sb", "p", "l", true, "u"⟩
    "a1" gcsSk
    [("a1", ⟨"sklearn", "1.9.0", "model.pkl",
      "sklearn.linear_model.LinearRegression", none, some "a1", "gs://b/m", none⟩)]
    ⟨"sklearn", "1.9.0", "model.pkl", "sklearn.linear_model.LinearRegression",
      none, some "a1", "gs://b/m", none⟩
    mdlLR rfl rfl rfl rfl

/-- Claim C7: when `register_model` is given an explicit non-empty serving
container image, no prebuilt-container catalog lookup happens; when none
is given (absent or empty), the lookup that happens passes the record's
framework name, version and the resolved region, and its accelerator is
`"gpu"` exactly when the record's framework name is `"tensorflow"` and the
caller requested GPU — in every other case `"cpu"`. -/
theorem register_model_accelerator_spec (art : ExperimentModel)
    (img : Option String) (use_gpu : Bool) (location : String)
    (catalog : CatalogLookup → String) :
    (∀ s, img = some s → s ≠ "" →
      (register_model_container art img use_gpu location catalog).1 = none) ∧
    (pyFalsyOptStr img = true →
      ∃ lk : CatalogLookup,
        (register_model_container art img use_gpu location catalog).1 = some lk ∧
        lk.framework = art.framework_name ∧
        lk.framework_version = art.framework_version ∧
        lk.region = location ∧
        (lk.accelerator = "gpu" ↔
          (art.framework_name = "tensorflow" ∧ use_gpu = true)) ∧
        (lk.accelerator = "gpu" ∨ lk.accelerator = "cpu")) := by
  constructor
  · intro s hs hne
    subst hs
    have hf : pyFalsyOptStr (some s) = false := by
      simpa [pyFalsyOptStr] using hne
    simp [register_model_container, hf]
  · intro hf
    by_cases hc : art.framework_name = "tensorflow" ∧ use_gpu = true
    · refine ⟨⟨art.framework_name, art.framework_version, location, "gpu"⟩,
        ?_, rfl, rfl, rfl, ?_, Or.inl rfl⟩
      · simp [register_model_container, hf, hc]
      · simp [hc]
    · refine ⟨⟨art.framework_name, art.framework_version, location, "cpu"⟩,
        ?_, rfl, rfl, rfl, ?_, Or.inr rfl⟩
      · simp [register_model_container, hf, hc]
      · simp [hc]

/-- Witness for `register_model_accelerator_spec`: with no explicit image,
a sklearn record with `use_gpu = true` still resolves a cpu container. -/
theorem register_model_accelerator_spec_witness :
    ∃ lk : CatalogLookup,
      (register_model_container artSk10 none true "us-central1"
        (fun _ => "img")).1 = some lk ∧
      lk.framework = artSk10.framework_name ∧
      lk.framework_version = artSk10.framework_version ∧
      lk.region = "us-central1" ∧
      (lk.accelerator = "gpu" ↔
        (artSk10.framework_name = "tensorflow" ∧ true = true)) ∧
      (lk.accelerator = "gpu" ∨ lk.accelerator = "cpu") :=
  (register_model_accelerator_spec artSk10 none true "us-central1"
    (fun _ => "img")).2 rfl

/-- Claim C8: the `_remote` flag is `False` at construction; a
configuration call that omits `remote` receives the declared default
`False` and so resets the flag to `False`; an explicit `remote=None`
preserves the previous value; any explicit boolean overwrites it. -/
theorem config_remote_flag_spec :
    ConfigState.mk0.remote = false ∧
    (∀ st : ConfigState, (ConfigState.initOmittingRemote st).remote = false) ∧
    (∀ st : ConfigState, (st.init none).remote = st.remote) ∧
    (∀ (st : ConfigState) (b : Bool), (st.init (some b)).remote = b) := by
  refine ⟨rfl, ?_, ?_, ?_⟩
  · intro st
    rfl
  · intro st
    rfl
  · intro st b
    rfl

end AiplatformModels
